import Mathlib

/-!
Shallow embedding of the 4-player tic-tac-toe game engine (`App.tsx`) and a
verification of its specification.

The React component keeps three pieces of state: `turn` (the player to move),
`winner` (a status string, initially `DEFAULT_WINNER_TEXT`), and `allButtons`
(a flat list of 25 cells, each holding a player id 1–4 or the empty sentinel 9).
We model the cells as `List Nat`, the winner string as `String`, and the event
handlers `placeMarker` / `restartGame` as state transformers.  Sound and
animation side effects are modelled separately as the list of events a call
emits.  JavaScript array reads that may fall out of range are modelled with
`Option` (`none` standing for `undefined`), and JavaScript truthiness of a
`number | null` result is modelled by `truthy` (both `null` and `0` are falsy).
-/

namespace TicTacToe

def FIRST_PLAYER : Nat := 1
def SECOND_PLAYER : Nat := 2
def THIRD_PLAYER : Nat := 3
def FOURTH_PLAYER : Nat := 4
def GRID_SIZE : Nat := 5
def PLAYGROUND_SIZE : Nat := GRID_SIZE * GRID_SIZE
def EMPTY_CELL_VALUE : Nat := 9
def DEFAULT_WINNER_TEXT : String := "No one has won yet."

/-- The component state held by the three `useState` hooks of `App`. -/
structure AppState where
  turn : Nat
  winner : String
  allButtons : List Nat
  deriving DecidableEq, Repr

/-- The initial state of a freshly mounted `App` component:
`useState(FIRST_PLAYER)`, `useState(DEFAULT_WINNER_TEXT)`,
`useState(Array(PLAYGROUND_SIZE).fill(EMPTY_CELL_VALUE))`. -/
def initState : AppState :=
  { turn := FIRST_PLAYER
    winner := DEFAULT_WINNER_TEXT
    allButtons := List.replicate PLAYGROUND_SIZE EMPTY_CELL_VALUE }

/-- `incrementTurn` (as the pure updater passed to `setTurn`): 1→2→3→4, and
everything else (in particular 4) back to 1. -/
def incrementTurn (prevTurn : Nat) : Nat :=
  if prevTurn = FIRST_PLAYER then SECOND_PLAYER
  else if prevTurn = SECOND_PLAYER then THIRD_PLAYER
  else if prevTurn = THIRD_PLAYER then FOURTH_PLAYER
  else FIRST_PLAYER

/-- `getWinnerString`. -/
def getWinnerString (player : Nat) : String :=
  "Player " ++ toString player ++ " wins!"

/-- JavaScript truthiness of a `number | null` value: `null` and `0` are
falsy, every other number is truthy. -/
def truthy : Option Nat → Bool
  | none => false
  | some n => n ≠ 0

/-- `scanColumns(colIndex, buttons)`:
`Array.from({length: GRID_SIZE}, (_, row) => buttons[row * GRID_SIZE + colIndex])`.
All reads are in range on the length-25 grids the component uses, so the
`getD` default is never observed there. -/
def scanColumns (colIndex : Nat) (buttons : List Nat) : List Nat :=
  (List.range GRID_SIZE).map (fun row => buttons.getD (row * GRID_SIZE + colIndex) 0)

/-- The diagonal-collecting `for` loop
`for (let i = start; i < bound; i += step) diagonal.push(buttons[i])`,
with an explicit fuel bounding the iteration count.  Since both call sites use
a positive `step`, `i` grows by at least 1 per iteration, so `fuel = bound`
iterations always suffice to reach `bound` from any start below it. -/
def scanLoop (buttons : List Nat) (step bound : Nat) : Nat → Nat → List Nat
  | _, 0 => []
  | i, fuel + 1 =>
    if i < bound then buttons.getD i 0 :: scanLoop buttons step bound (i + step) fuel
    else []

/-- `topLeftToBottomRightScan`: indices `0, GRID_SIZE+1, 2(GRID_SIZE+1), …`
while below `buttons.length`. -/
def topLeftToBottomRightScan (buttons : List Nat) : List Nat :=
  scanLoop buttons (GRID_SIZE + 1) buttons.length 0 buttons.length

/-- `topRightToBottomLeftScan`: indices `GRID_SIZE-1, 2(GRID_SIZE-1), …`
while below `buttons.length - 1`. -/
def topRightToBottomLeftScan (buttons : List Nat) : List Nat :=
  scanLoop buttons (GRID_SIZE - 1) (buttons.length - 1) (GRID_SIZE - 1) buttons.length

/-- `checkWinnerBatch(batch)`: returns `batch[0]` when it is not the empty
sentinel and every cell equals it, else `null`.  On an empty batch JavaScript
reads `batch[0] = undefined` and returns it; since the result is only ever
consumed through truthiness, we model that falsy return as `some 0`
(`batch.getD 0 0`), which `truthy` likewise rejects. -/
def checkWinnerBatch (batch : List Nat) : Option Nat :=
  let first := batch.getD 0 0
  if first ≠ EMPTY_CELL_VALUE ∧ batch.all (fun cell => cell = first) then some first
  else none

/-- The row-scanning loop of `displayWinner`:
`for (let i = 0; i < buttons.length; i += GRID_SIZE)` checking
`buttons.slice(i, i + GRID_SIZE)`, returning the first truthy batch winner.
Fuel as in `scanLoop`; `buttons.length + 1` iterations always suffice. -/
def rowsScanLoop (buttons : List Nat) : Nat → Nat → Option Nat
  | _, 0 => none
  | i, fuel + 1 =>
    if i < buttons.length then
      let w := checkWinnerBatch ((buttons.drop i).take GRID_SIZE)
      if truthy w then w else rowsScanLoop buttons (i + GRID_SIZE) fuel
    else none

/-- The column-scanning loop of `displayWinner`:
`for (let i = 0; i < GRID_SIZE; i++)` checking `scanColumns(i, buttons)`. -/
def colsScanLoop (buttons : List Nat) : Nat → Nat → Option Nat
  | _, 0 => none
  | i, fuel + 1 =>
    if i < GRID_SIZE then
      let w := checkWinnerBatch (scanColumns i buttons)
      if truthy w then w else colsScanLoop buttons (i + 1) fuel
    else none

/-- `displayWinner(buttons)`: rows first, then columns, then the main
diagonal, then the anti-diagonal; the first truthy batch result wins,
otherwise `null`. -/
def displayWinner (buttons : List Nat) : Option Nat :=
  let w1 := rowsScanLoop buttons 0 (buttons.length + 1)
  if truthy w1 then w1
  else
    let w2 := colsScanLoop buttons 0 (GRID_SIZE + 1)
    if truthy w2 then w2
    else
      let wd1 := checkWinnerBatch (topLeftToBottomRightScan buttons)
      if truthy wd1 then wd1
      else
        let wd2 := checkWinnerBatch (topRightToBottomLeftScan buttons)
        if truthy wd2 then wd2
        else none

/-- First-truthy-result scan over a list of lines, each line tested with
`checkWinnerBatch`: the common shape of the scanning loops of
`displayWinner`, used to relate the scan to its specification. -/
def ifTruthyChain : List (List Nat) → Option Nat
  | [] => none
  | l :: rest =>
    if truthy (checkWinnerBatch l) then checkWinnerBatch l else ifTruthyChain rest

/-- Specification-side definition, following the spec's words: a line is won
iff every cell in it holds the same PlayerId and that value is not Empty
(stated on the head and tail of a nonempty line). -/
def specWonLine : List Nat → Option Nat
  | [] => none
  | v :: rest =>
    if v ≠ EMPTY_CELL_VALUE ∧ rest.all (fun c => c = v) then some v else none

/-- Specification-side definition, following the spec's words: the lines of
the scan in the fixed order — N rows ascending, N columns ascending, the
main diagonal (indices 0, N+1, 2(N+1), …), then the anti-diagonal (indices
N-1, 2N-2, 3N-3, …). -/
def specLines (g : List Nat) : List (List Nat) :=
  ((List.range GRID_SIZE).map fun r => (g.drop (r * GRID_SIZE)).take GRID_SIZE) ++
    (((List.range GRID_SIZE).map fun c =>
      (List.range GRID_SIZE).map fun r => g.getD (r * GRID_SIZE + c) 0) ++
    [(List.range GRID_SIZE).map fun k => g.getD (k * (GRID_SIZE + 1)) 0,
      (List.range GRID_SIZE).map fun k => g.getD ((k + 1) * (GRID_SIZE - 1)) 0])

/-- Specification-side definition, following the spec's words: return the
first won line's PlayerId in the fixed scan order (short-circuit), or "no
winner". -/
def specScan (g : List Nat) : Option Nat :=
  (specLines g).findSome? specWonLine

/-- The JavaScript array read `buttons[id]` at an arbitrary (possibly
negative or too large) integer index: `undefined` out of range, modelled as
`none`. -/
def jsGet (buttons : List Nat) (id : Int) : Option Nat :=
  if 0 ≤ id ∧ id.toNat < buttons.length then some (buttons.getD id.toNat 0)
  else none

/-- `placeMarker(id)`: rejected (no state change) when the cell read is not
the empty sentinel or the winner text is no longer the default; otherwise the
cell is set to the current turn, the win scan runs on the new grid, the winner
string is updated when a winner is found, the new grid is committed, and the
turn is advanced (unconditionally — `incrementTurn()` is the last statement of
the handler, outside the winner branch). -/
def placeMarker (id : Int) (s : AppState) : AppState :=
  if jsGet s.allButtons id ≠ some EMPTY_CELL_VALUE ∨ s.winner ≠ DEFAULT_WINNER_TEXT then s
  else
    let newButtons := s.allButtons.set id.toNat s.turn
    let winnerPlayer := displayWinner newButtons
    if truthy winnerPlayer then
      { turn := incrementTurn s.turn
        winner := getWinnerString (winnerPlayer.getD 0)
        allButtons := newButtons }
    else
      { turn := incrementTurn s.turn
        winner := s.winner
        allButtons := newButtons }

/-- The observable collaborator side effects (sounds, fireworks). -/
inductive SideEffect where
  | winSound
  | fireworks
  | clickSound
  | restartSound
  deriving DecidableEq, Repr

/-- The side effects emitted by one `placeMarker` call: none when rejected;
fireworks and the win sound when the move wins; the click sound otherwise. -/
def placeMarkerEffects (id : Int) (s : AppState) : List SideEffect :=
  if jsGet s.allButtons id ≠ some EMPTY_CELL_VALUE ∨ s.winner ≠ DEFAULT_WINNER_TEXT then []
  else if truthy (displayWinner (s.allButtons.set id.toNat s.turn)) then
    [SideEffect.fireworks, SideEffect.winSound]
  else [SideEffect.clickSound]

/-- `restartGame()`: a fresh all-empty grid, the default winner text, and
player 1 to move, from any prior state. -/
def restartGame (_s : AppState) : AppState :=
  { turn := FIRST_PLAYER
    winner := DEFAULT_WINNER_TEXT
    allButtons := List.replicate PLAYGROUND_SIZE EMPTY_CELL_VALUE }

/-- A user interaction: a click on cell `id`, or the restart button. -/
inductive Op where
  | place (id : Int)
  | restart
  deriving DecidableEq, Repr

def applyOp (s : AppState) : Op → AppState
  | Op.place id => placeMarker id s
  | Op.restart => restartGame s

def runOps (ops : List Op) (s : AppState) : AppState :=
  ops.foldl applyOp s

/-- `placeMarker id s` is accepted: the guard of the early return is false. -/
abbrev accepted (id : Int) (s : AppState) : Prop :=
  jsGet s.allButtons id = some EMPTY_CELL_VALUE ∧ s.winner = DEFAULT_WINNER_TEXT

/-- A cell value is well formed: the empty sentinel or a player id. -/
abbrev validCell (c : Nat) : Prop :=
  c = EMPTY_CELL_VALUE ∨ (1 ≤ c ∧ c ≤ 4)

/-- A turn value is a valid player id. -/
abbrev validTurn (t : Nat) : Prop :=
  1 ≤ t ∧ t ≤ 4

/-- The state invariant: a 25-cell grid of well-formed cells, and a valid
turn. -/
abbrev Inv (s : AppState) : Prop :=
  s.allButtons.length = PLAYGROUND_SIZE ∧ (∀ c ∈ s.allButtons, validCell c) ∧ validTurn s.turn

/-! ### Basic lemmas about the engine operations -/

theorem validTurn_incrementTurn (t : Nat) : validTurn (incrementTurn t) := by
  unfold incrementTurn
  split_ifs <;> decide

theorem placeMarker_rejected (id : Int) (s : AppState)
    (h : jsGet s.allButtons id ≠ some EMPTY_CELL_VALUE ∨ s.winner ≠ DEFAULT_WINNER_TEXT) :
    placeMarker id s = s := by
  unfold placeMarker
  rw [if_pos h]

theorem placeMarkerEffects_rejected (id : Int) (s : AppState)
    (h : jsGet s.allButtons id ≠ some EMPTY_CELL_VALUE ∨ s.winner ≠ DEFAULT_WINNER_TEXT) :
    placeMarkerEffects id s = [] := by
  unfold placeMarkerEffects
  rw [if_pos h]

/-- The full effect of an accepted `placeMarker` call on the state. -/
theorem placeMarker_accepted (id : Int) (s : AppState) (h : accepted id s) :
    placeMarker id s =
      { turn := incrementTurn s.turn
        winner :=
          if truthy (displayWinner (s.allButtons.set id.toNat s.turn)) then
            getWinnerString ((displayWinner (s.allButtons.set id.toNat s.turn)).getD 0)
          else s.winner
        allButtons := s.allButtons.set id.toNat s.turn } := by
  unfold placeMarker
  rw [if_neg (by simp [h.1, h.2])]
  dsimp only
  split <;> rfl

theorem placeMarker_accepted_turn (id : Int) (s : AppState) (h : accepted id s) :
    (placeMarker id s).turn = incrementTurn s.turn := by
  rw [placeMarker_accepted id s h]

theorem placeMarker_accepted_allButtons (id : Int) (s : AppState) (h : accepted id s) :
    (placeMarker id s).allButtons = s.allButtons.set id.toNat s.turn := by
  rw [placeMarker_accepted id s h]

/-- An accepted call read the cell, so the index was in range. -/
theorem accepted_range (id : Int) (s : AppState) (h : accepted id s) :
    0 ≤ id ∧ id.toNat < s.allButtons.length := by
  have h1 := h.1
  unfold jsGet at h1
  by_cases hc : 0 ≤ id ∧ id.toNat < s.allButtons.length
  · exact hc
  · rw [if_neg hc] at h1
    exact absurd h1 (by simp)

/-! ### C7, C2, C9 -/

/-- C7: a freshly constructed game is in progress (default winner text), has
player 1 to move and an all-empty 25-cell grid, and `restartGame` restores
exactly this initial state from any prior state. -/
theorem c7_initial_state_and_restart :
    initState.turn = FIRST_PLAYER ∧
    initState.winner = DEFAULT_WINNER_TEXT ∧
    initState.allButtons.length = PLAYGROUND_SIZE ∧
    (∀ c ∈ initState.allButtons, c = EMPTY_CELL_VALUE) ∧
    (∀ s : AppState, restartGame s = initState) := by
  refine ⟨rfl, rfl, by decide, ?_, fun s => rfl⟩
  intro c hc
  exact List.eq_of_mem_replicate hc

theorem c7_initial_state_and_restart_witness :
    restartGame ⟨3, "Player 2 wins!", [1, 2, 3]⟩ = initState :=
  c7_initial_state_and_restart.2.2.2.2 ⟨3, "Player 2 wins!", [1, 2, 3]⟩

/-- C2: calling `placeMarker` on an occupied cell, or after the game is won,
is a silent no-op: the state is unchanged, no side effect is emitted, and any
number of repetitions of the rejected call leaves the state as after zero
calls. -/
theorem c2_rejected_silent_noop (s : AppState) (id : Int) (n : Nat)
    (h : (∃ c, jsGet s.allButtons id = some c ∧ c ≠ EMPTY_CELL_VALUE) ∨
      s.winner ≠ DEFAULT_WINNER_TEXT) :
    placeMarker id s = s ∧ placeMarkerEffects id s = [] ∧
    (placeMarker id)^[n] s = s := by
  have hg : jsGet s.allButtons id ≠ some EMPTY_CELL_VALUE ∨ s.winner ≠ DEFAULT_WINNER_TEXT := by
    rcases h with ⟨c, hc, hne⟩ | h
    · left
      rw [hc]
      simp [hne]
    · right
      exact h
  have h1 := placeMarker_rejected id s hg
  exact ⟨h1, placeMarkerEffects_rejected id s hg, Function.iterate_fixed h1 n⟩

theorem c2_rejected_silent_noop_witness :
    placeMarker 0 ⟨1, DEFAULT_WINNER_TEXT, 1 :: List.replicate 24 9⟩ =
        ⟨1, DEFAULT_WINNER_TEXT, 1 :: List.replicate 24 9⟩ ∧
      placeMarkerEffects 0 ⟨1, DEFAULT_WINNER_TEXT, 1 :: List.replicate 24 9⟩ = [] ∧
      (placeMarker 0)^[3] ⟨1, DEFAULT_WINNER_TEXT, 1 :: List.replicate 24 9⟩ =
        ⟨1, DEFAULT_WINNER_TEXT, 1 :: List.replicate 24 9⟩ :=
  c2_rejected_silent_noop ⟨1, DEFAULT_WINNER_TEXT, 1 :: List.replicate 24 9⟩ 0 3
    (Or.inl ⟨1, by decide, by decide⟩)

/-- C9: for an index outside `[0, 25)` the JavaScript cell read yields
`undefined` (`none`), which differs from the empty sentinel, so the call is
silently rejected and the state is unchanged. -/
theorem c9_out_of_range_noop (s : AppState) (id : Int)
    (hlen : s.allButtons.length = PLAYGROUND_SIZE)
    (h : id < 0 ∨ (PLAYGROUND_SIZE : Int) ≤ id) :
    jsGet s.allButtons id = none ∧
    jsGet s.allButtons id ≠ some EMPTY_CELL_VALUE ∧
    placeMarker id s = s := by
  have hc : ¬(0 ≤ id ∧ id.toNat < s.allButtons.length) := by
    rw [hlen]
    simp only [PLAYGROUND_SIZE, GRID_SIZE] at h ⊢
    omega
  have hnone : jsGet s.allButtons id = none := by
    unfold jsGet
    rw [if_neg hc]
  exact ⟨hnone, by simp [hnone], placeMarker_rejected id s (Or.inl (by simp [hnone]))⟩

theorem c9_out_of_range_noop_witness :
    jsGet initState.allButtons (-1) = none ∧
      jsGet initState.allButtons (-1) ≠ some EMPTY_CELL_VALUE ∧
      placeMarker (-1) initState = initState :=
  c9_out_of_range_noop initState (-1) (by decide) (Or.inl (by decide))

/-! ### C6, C8, C10 -/

/-- C6: the turn is always a valid player id, advances in round-robin order
1→2→3→4→1, advancing four times is the identity on valid turns, and after
four consecutive accepted placements starting from player 1 the turn is again
player 1. -/
theorem c6_turn_round_robin (t : Nat) (ht : validTurn t) (s : AppState) (i1 i2 i3 i4 : Int)
    (hs : s.turn = FIRST_PLAYER)
    (h1 : accepted i1 s)
    (h2 : accepted i2 (placeMarker i1 s))
    (h3 : accepted i3 (placeMarker i2 (placeMarker i1 s)))
    (h4 : accepted i4 (placeMarker i3 (placeMarker i2 (placeMarker i1 s)))) :
    validTurn (incrementTurn t) ∧
    incrementTurn FIRST_PLAYER = SECOND_PLAYER ∧
    incrementTurn SECOND_PLAYER = THIRD_PLAYER ∧
    incrementTurn THIRD_PLAYER = FOURTH_PLAYER ∧
    incrementTurn FOURTH_PLAYER = FIRST_PLAYER ∧
    incrementTurn (incrementTurn (incrementTurn (incrementTurn t))) = t ∧
    (placeMarker i4 (placeMarker i3 (placeMarker i2 (placeMarker i1 s)))).turn
      = FIRST_PLAYER := by
  obtain ⟨ht1, ht4⟩ := ht
  refine ⟨validTurn_incrementTurn t, by decide, by decide, by decide, by decide, ?_, ?_⟩
  · interval_cases t <;> decide
  · rw [placeMarker_accepted_turn _ _ h4, placeMarker_accepted_turn _ _ h3,
      placeMarker_accepted_turn _ _ h2, placeMarker_accepted_turn _ _ h1, hs]
    decide

theorem c6_turn_round_robin_witness :
    validTurn (incrementTurn 4) ∧
    incrementTurn FIRST_PLAYER = SECOND_PLAYER ∧
    incrementTurn SECOND_PLAYER = THIRD_PLAYER ∧
    incrementTurn THIRD_PLAYER = FOURTH_PLAYER ∧
    incrementTurn FOURTH_PLAYER = FIRST_PLAYER ∧
    incrementTurn (incrementTurn (incrementTurn (incrementTurn 4))) = 4 ∧
    (placeMarker 3 (placeMarker 2 (placeMarker 1 (placeMarker 0 initState)))).turn
      = FIRST_PLAYER :=
  c6_turn_round_robin 4 (by decide) initState 0 1 2 3 (by decide)
    (by decide) (by decide) (by decide) (by decide)

/-- C8: an accepted placement commits exactly the previous grid with the
clicked index set to the current turn: that cell now holds the turn value,
every other position is unchanged, and the length is preserved.  The single
committed grid is the same whether or not the move produced a winner. -/
theorem c8_accepted_frame (s : AppState) (id : Int) (h : accepted id s) :
    (placeMarker id s).allButtons = s.allButtons.set id.toNat s.turn ∧
    (placeMarker id s).allButtons.getD id.toNat 0 = s.turn ∧
    (∀ j : Nat, j ≠ id.toNat →
      (placeMarker id s).allButtons.getD j 0 = s.allButtons.getD j 0) ∧
    (placeMarker id s).allButtons.length = s.allButtons.length := by
  have hb := placeMarker_accepted_allButtons id s h
  have hr := accepted_range id s h
  refine ⟨hb, ?_, ?_, by rw [hb, List.length_set]⟩
  · rw [hb]
    simp [List.getElem?_set_self hr.2]
  · intro j hj
    rw [hb]
    simp [List.getElem?_set_ne (Ne.symm hj)]

theorem c8_accepted_frame_witness :
    (placeMarker 12 initState).allButtons
        = initState.allButtons.set (12 : Int).toNat initState.turn ∧
      (placeMarker 12 initState).allButtons.getD (12 : Int).toNat 0 = initState.turn :=
  ⟨(c8_accepted_frame initState 12 (by decide)).1,
    (c8_accepted_frame initState 12 (by decide)).2.1⟩

theorem Inv_placeMarker (id : Int) (s : AppState) (h : Inv s) : Inv (placeMarker id s) := by
  by_cases hg : jsGet s.allButtons id ≠ some EMPTY_CELL_VALUE ∨ s.winner ≠ DEFAULT_WINNER_TEXT
  · rw [placeMarker_rejected id s hg]
    exact h
  · push_neg at hg
    have hacc : accepted id s := ⟨hg.1, hg.2⟩
    obtain ⟨hlen, hcells, hturn⟩ := h
    refine ⟨?_, ?_, ?_⟩
    · rw [placeMarker_accepted_allButtons id s hacc, List.length_set]
      exact hlen
    · rw [placeMarker_accepted_allButtons id s hacc]
      intro c hc
      rcases List.mem_or_eq_of_mem_set hc with hmem | rfl
      · exact hcells c hmem
      · exact Or.inr hturn
    · rw [placeMarker_accepted_turn id s hacc]
      exact validTurn_incrementTurn s.turn

theorem Inv_restartGame (s : AppState) : Inv (restartGame s) := by
  have hinit : restartGame s = initState := rfl
  rw [hinit]
  exact ⟨by decide, fun c hc => Or.inl (List.eq_of_mem_replicate hc), by decide⟩

theorem Inv_runOps (ops : List Op) (s : AppState) (h : Inv s) : Inv (runOps ops s) := by
  induction ops generalizing s with
  | nil => exact h
  | cons op ops ih =>
    cases op with
    | place id => exact ih _ (Inv_placeMarker id s h)
    | restart => exact ih _ (Inv_restartGame s)

/-- C10: every state reachable from the initial state by clicks and restarts
has a grid of exactly 25 cells, each holding the empty sentinel 9 or a player
id in 1..4, and a turn in 1..4. -/
theorem c10_reachable_invariant (ops : List Op) :
    (runOps ops initState).allButtons.length = PLAYGROUND_SIZE ∧
    (∀ c ∈ (runOps ops initState).allButtons,
      c = EMPTY_CELL_VALUE ∨ (1 ≤ c ∧ c ≤ 4)) ∧
    (1 ≤ (runOps ops initState).turn ∧ (runOps ops initState).turn ≤ 4) :=
  Inv_runOps ops initState
    ⟨by decide, fun c hc => Or.inl (List.eq_of_mem_replicate hc), by decide⟩

theorem c10_reachable_invariant_witness :
    (runOps [Op.place 3, Op.restart, Op.place 7] initState).allButtons.length
      = PLAYGROUND_SIZE :=
  (c10_reachable_invariant [Op.place 3, Op.restart, Op.place 7]).1

/-! ### C1: counterexample and amended statement -/

/-- C1 counterexample: a legal 16-move game (no winner yet, player 1 to move,
row 0 holding `[1,1,1,1,9]`) followed by player 1 clicking cell 4.  The move
is accepted, the win scan finds player 1 as the winner — and the turn still
advances from 1 to 2, refuting "does not advance Turn" and "Turn advances …
only after a … placement that produces no winner". -/
theorem c1_counterexample :
    accepted 4 (runOps [Op.place 0, Op.place 5, Op.place 6, Op.place 7,
        Op.place 1, Op.place 8, Op.place 9, Op.place 10,
        Op.place 2, Op.place 11, Op.place 12, Op.place 13,
        Op.place 3, Op.place 14, Op.place 15, Op.place 16] initState) ∧
    (runOps [Op.place 0, Op.place 5, Op.place 6, Op.place 7,
        Op.place 1, Op.place 8, Op.place 9, Op.place 10,
        Op.place 2, Op.place 11, Op.place 12, Op.place 13,
        Op.place 3, Op.place 14, Op.place 15, Op.place 16] initState).turn
      = FIRST_PLAYER ∧
    (placeMarker 4 (runOps [Op.place 0, Op.place 5, Op.place 6, Op.place 7,
        Op.place 1, Op.place 8, Op.place 9, Op.place 10,
        Op.place 2, Op.place 11, Op.place 12, Op.place 13,
        Op.place 3, Op.place 14, Op.place 15, Op.place 16] initState)).winner
      = getWinnerString FIRST_PLAYER ∧
    (placeMarker 4 (runOps [Op.place 0, Op.place 5, Op.place 6, Op.place 7,
        Op.place 1, Op.place 8, Op.place 9, Op.place 10,
        Op.place 2, Op.place 11, Op.place 12, Op.place 13,
        Op.place 3, Op.place 14, Op.place 15, Op.place 16] initState)).turn
      = SECOND_PLAYER := by
  set_option maxRecDepth 100000 in decide

/-- C1 amended: when an accepted placement finds a winner the status is set
to Won(winner) (the winner string); when it finds none the status stays
InProgress (the winner string is unchanged).  In both cases the turn advances
to the next player in round-robin order. -/
theorem c1_amended_status_and_turn (s : AppState) (id : Int) (h : accepted id s) :
    (placeMarker id s).turn = incrementTurn s.turn ∧
    (∀ w, displayWinner (s.allButtons.set id.toNat s.turn) = some w → w ≠ 0 →
      (placeMarker id s).winner = getWinnerString w) ∧
    (displayWinner (s.allButtons.set id.toNat s.turn) = none →
      (placeMarker id s).winner = s.winner) := by
  have hacc := placeMarker_accepted id s h
  refine ⟨placeMarker_accepted_turn id s h, ?_, ?_⟩
  · intro w hw hw0
    rw [hacc]
    simp [hw, truthy, hw0]
  · intro hw
    rw [hacc]
    simp [hw, truthy]

theorem c1_amended_status_and_turn_witness :
    (placeMarker 0 initState).turn = incrementTurn initState.turn :=
  (c1_amended_status_and_turn initState 0 (by decide)).1

/-! ### The win scan: C3, C5 -/

theorem checkWinnerBatch_eq_some (l : List Nat) (v : Nat) (h : checkWinnerBatch l = some v) :
    v = l.getD 0 0 ∧ v ≠ EMPTY_CELL_VALUE ∧ ∀ c ∈ l, c = v := by
  simp only [checkWinnerBatch] at h
  split_ifs at h with hc
  obtain ⟨h9, hall⟩ := hc
  injection h with h
  subst h
  exact ⟨rfl, h9, fun c hc2 => of_decide_eq_true (List.all_eq_true.mp hall c hc2)⟩

theorem checkWinnerBatch_ne_empty (l : List Nat) :
    checkWinnerBatch l ≠ some EMPTY_CELL_VALUE := by
  intro h
  obtain ⟨_, h9, _⟩ := checkWinnerBatch_eq_some l _ h
  exact h9 rfl

theorem rowsScanLoop_ne_empty (g : List Nat) (fuel i : Nat) :
    rowsScanLoop g i fuel ≠ some EMPTY_CELL_VALUE := by
  induction fuel generalizing i with
  | zero => simp [rowsScanLoop]
  | succ fuel ih =>
    simp only [rowsScanLoop]
    split_ifs <;> first
      | exact checkWinnerBatch_ne_empty _
      | exact ih _
      | simp

theorem colsScanLoop_ne_empty (g : List Nat) (fuel i : Nat) :
    colsScanLoop g i fuel ≠ some EMPTY_CELL_VALUE := by
  induction fuel generalizing i with
  | zero => simp [colsScanLoop]
  | succ fuel ih =>
    simp only [colsScanLoop]
    split_ifs <;> first
      | exact checkWinnerBatch_ne_empty _
      | exact ih _
      | simp

theorem displayWinner_ne_empty (g : List Nat) :
    displayWinner g ≠ some EMPTY_CELL_VALUE := by
  simp only [displayWinner]
  split_ifs <;> first
    | exact rowsScanLoop_ne_empty g _ 0
    | exact colsScanLoop_ne_empty g _ 0
    | exact checkWinnerBatch_ne_empty _
    | simp

/-- C3: the batch check reports a winner exactly when all five cells of the
line hold one common value distinct from the empty sentinel; the whole scan
(a total function) never reports the empty sentinel as a winner; the
all-empty grid has no winner; and any line containing two distinct values
(in particular four matching cells plus one differing or empty cell) reports
no winner. -/
theorem c3_win_line_characterization (l : List Nat) (hl : l.length = GRID_SIZE)
    (v : Nat) (g : List Nat) :
    (checkWinnerBatch l = some v ↔ (v ≠ EMPTY_CELL_VALUE ∧ ∀ c ∈ l, c = v)) ∧
    displayWinner g ≠ some EMPTY_CELL_VALUE ∧
    displayWinner (List.replicate PLAYGROUND_SIZE EMPTY_CELL_VALUE) = none ∧
    (∀ a ∈ l, ∀ b ∈ l, a ≠ b → checkWinnerBatch l = none) := by
  refine ⟨⟨?_, ?_⟩, displayWinner_ne_empty g, by decide, ?_⟩
  · intro h
    obtain ⟨_, h9, hall⟩ := checkWinnerBatch_eq_some l v h
    exact ⟨h9, hall⟩
  · rintro ⟨h9, hall⟩
    obtain ⟨a, t, rfl⟩ := @List.exists_of_length_succ Nat 4 l (by rw [hl]; rfl)
    have ha : a = v := hall a (List.mem_cons_self a t)
    subst ha
    simp only [checkWinnerBatch]
    rw [if_pos]
    · rfl
    · refine ⟨h9, ?_⟩
      rw [List.all_eq_true]
      intro c hc
      simpa using hall c hc
  · intro a ha b hb hab
    by_cases h : checkWinnerBatch l = none
    · exact h
    · obtain ⟨v', hv'⟩ := Option.ne_none_iff_exists'.mp h
      obtain ⟨_, _, hall⟩ := checkWinnerBatch_eq_some l v' hv'
      exact absurd ((hall a ha).trans (hall b hb).symm) hab

theorem c3_win_line_characterization_witness :
    displayWinner (List.replicate PLAYGROUND_SIZE EMPTY_CELL_VALUE) = none ∧
    displayWinner [1, 1, 1, 1, 1] ≠ some EMPTY_CELL_VALUE :=
  ⟨(c3_win_line_characterization [2, 2, 2, 2, 2] (by decide) 2 []).2.2.1,
    (c3_win_line_characterization [2, 2, 2, 2, 2] (by decide) 2 [1, 1, 1, 1, 1]).2.1⟩

theorem topLeftToBottomRightScan_eq (g : List Nat) (hg : g.length = 25) :
    topLeftToBottomRightScan g =
      [g.getD 0 0, g.getD 6 0, g.getD 12 0, g.getD 18 0, g.getD 24 0] := by
  simp [topLeftToBottomRightScan, scanLoop, hg, GRID_SIZE]

theorem topRightToBottomLeftScan_eq (g : List Nat) (hg : g.length = 25) :
    topRightToBottomLeftScan g =
      [g.getD 4 0, g.getD 8 0, g.getD 12 0, g.getD 16 0, g.getD 20 0] := by
  simp [topRightToBottomLeftScan, scanLoop, hg, GRID_SIZE]

/-- C5: on a 25-cell grid the main diagonal collected by the scan is exactly
the cells at indices 0, 6, 12, 18, 24 and the anti-diagonal exactly those at
4, 8, 12, 16, 20, each line having the full 5 cells (as does every scanned
column); concretely, the grid with player 1 on the main diagonal reports
player 1, and the grid with player 4 on the anti-diagonal reports player 4. -/
theorem c5_diagonal_lines (g : List Nat) (c : Nat) (hg : g.length = PLAYGROUND_SIZE) :
    topLeftToBottomRightScan g =
      [g.getD 0 0, g.getD 6 0, g.getD 12 0, g.getD 18 0, g.getD 24 0] ∧
    topRightToBottomLeftScan g =
      [g.getD 4 0, g.getD 8 0, g.getD 12 0, g.getD 16 0, g.getD 20 0] ∧
    (topLeftToBottomRightScan g).length = GRID_SIZE ∧
    (topRightToBottomLeftScan g).length = GRID_SIZE ∧
    (scanColumns c g).length = GRID_SIZE ∧
    displayWinner [1, 9, 9, 9, 9,
                   9, 1, 9, 9, 9,
                   9, 9, 1, 9, 9,
                   9, 9, 9, 1, 9,
                   9, 9, 9, 9, 1] = some 1 ∧
    displayWinner [9, 9, 9, 9, 4,
                   9, 9, 9, 4, 9,
                   9, 9, 4, 9, 9,
                   9, 4, 9, 9, 9,
                   4, 9, 9, 9, 9] = some 4 := by
  have hg25 : g.length = 25 := hg.trans (by decide)
  have h1 := topLeftToBottomRightScan_eq g hg25
  have h2 := topRightToBottomLeftScan_eq g hg25
  refine ⟨h1, h2, ?_, ?_, ?_, by decide, by decide⟩
  · rw [h1]
    rfl
  · rw [h2]
    rfl
  · simp [scanColumns]

/-! ### C4: the scan equals the specified first-won-line scan -/

theorem specWonLine_eq_checkWinnerBatch (l : List Nat) (h : l ≠ []) :
    specWonLine l = checkWinnerBatch l := by
  cases l with
  | nil => exact absurd rfl h
  | cons a t => simp [specWonLine, checkWinnerBatch]

theorem getD_mem (g : List Nat) (i : Nat) (h : i < g.length) : g.getD i 0 ∈ g := by
  rw [List.getD_eq_getElem?_getD, List.getElem?_eq_getElem h]
  exact List.getElem_mem h

theorem ifTruthy_check_eq_or (l : List Nat) (x : Option Nat) (hne : l ≠ [])
    (hv : ∀ c ∈ l, validCell c) :
    (if truthy (checkWinnerBatch l) then checkWinnerBatch l else x)
      = (checkWinnerBatch l).or x := by
  rcases h : checkWinnerBatch l with _ | v
  · simp [truthy]
  · obtain ⟨hv0, h9, _⟩ := checkWinnerBatch_eq_some l v h
    have hmem : v ∈ l := by
      rw [hv0]
      cases l with
      | nil => exact absurd rfl hne
      | cons a t => exact List.mem_cons_self a t
    have hvz : v ≠ 0 := by
      rcases hv v hmem with h9' | hrange
      · exact absurd h9' h9
      · omega
    simp [truthy, hvz]

theorem ifTruthyChain_append (xs ys : List (List Nat)) :
    ifTruthyChain (xs ++ ys) =
      if truthy (ifTruthyChain xs) then ifTruthyChain xs else ifTruthyChain ys := by
  induction xs with
  | nil => simp [ifTruthyChain, truthy]
  | cons l rest ih =>
    simp only [List.cons_append, ifTruthyChain]
    by_cases h1 : truthy (checkWinnerBatch l) = true <;> simp [h1, ih]

theorem ifTruthyChain_eq_findSome (lines : List (List Nat))
    (h : ∀ l ∈ lines, l ≠ [] ∧ ∀ c ∈ l, validCell c) :
    ifTruthyChain lines = lines.findSome? specWonLine := by
  induction lines with
  | nil => rfl
  | cons l rest ih =>
    obtain ⟨hne, hv⟩ := h l (List.mem_cons_self l rest)
    rw [List.findSome?_cons, specWonLine_eq_checkWinnerBatch l hne]
    simp only [ifTruthyChain]
    rw [ifTruthy_check_eq_or l _ hne hv,
      ih (fun l' hl' => h l' (List.mem_cons_of_mem l hl'))]
    rcases checkWinnerBatch l with _ | v <;> rfl

theorem rowsScanLoop_succ (g : List Nat) (i fuel : Nat) (h : i < g.length) :
    rowsScanLoop g i (fuel + 1) =
      if truthy (checkWinnerBatch ((g.drop i).take GRID_SIZE)) then
        checkWinnerBatch ((g.drop i).take GRID_SIZE)
      else rowsScanLoop g (i + GRID_SIZE) fuel := by
  simp only [rowsScanLoop]
  rw [if_pos h]

theorem rowsScanLoop_stop (g : List Nat) (i fuel : Nat) (h : ¬ i < g.length) :
    rowsScanLoop g i (fuel + 1) = none := by
  simp only [rowsScanLoop]
  rw [if_neg h]

theorem colsScanLoop_succ (g : List Nat) (i fuel : Nat) (h : i < GRID_SIZE) :
    colsScanLoop g i (fuel + 1) =
      if truthy (checkWinnerBatch (scanColumns i g)) then
        checkWinnerBatch (scanColumns i g)
      else colsScanLoop g (i + 1) fuel := by
  simp only [colsScanLoop]
  rw [if_pos h]

theorem colsScanLoop_stop (g : List Nat) (i fuel : Nat) (h : ¬ i < GRID_SIZE) :
    colsScanLoop g i (fuel + 1) = none := by
  simp only [colsScanLoop]
  rw [if_neg h]

theorem rowsScanLoop_unrolled (g : List Nat) (hg : g.length = 25) :
    rowsScanLoop g 0 (g.length + 1) =
      ifTruthyChain [(g.drop 0).take GRID_SIZE, (g.drop 5).take GRID_SIZE,
        (g.drop 10).take GRID_SIZE, (g.drop 15).take GRID_SIZE,
        (g.drop 20).take GRID_SIZE] := by
  rw [hg,
    rowsScanLoop_succ g 0 25 (by omega),
    show (25 : Nat) = 24 + 1 from rfl,
    rowsScanLoop_succ g (0 + GRID_SIZE) 24 (by simp only [GRID_SIZE]; omega),
    show (24 : Nat) = 23 + 1 from rfl,
    rowsScanLoop_succ g (0 + GRID_SIZE + GRID_SIZE) 23 (by simp only [GRID_SIZE]; omega),
    show (23 : Nat) = 22 + 1 from rfl,
    rowsScanLoop_succ g (0 + GRID_SIZE + GRID_SIZE + GRID_SIZE) 22
      (by simp only [GRID_SIZE]; omega),
    show (22 : Nat) = 21 + 1 from rfl,
    rowsScanLoop_succ g (0 + GRID_SIZE + GRID_SIZE + GRID_SIZE + GRID_SIZE) 21
      (by simp only [GRID_SIZE]; omega),
    show (21 : Nat) = 20 + 1 from rfl,
    rowsScanLoop_stop g (0 + GRID_SIZE + GRID_SIZE + GRID_SIZE + GRID_SIZE + GRID_SIZE) 20
      (by simp only [GRID_SIZE]; omega)]
  rfl

theorem colsScanLoop_unrolled (g : List Nat) :
    colsScanLoop g 0 (GRID_SIZE + 1) =
      ifTruthyChain [scanColumns 0 g, scanColumns 1 g, scanColumns 2 g,
        scanColumns 3 g, scanColumns 4 g] := by
  rw [colsScanLoop_succ g 0 GRID_SIZE (by decide),
    show (GRID_SIZE : Nat) = 4 + 1 from rfl,
    colsScanLoop_succ g (0 + 1) 4 (by decide),
    show (4 : Nat) = 3 + 1 from rfl,
    colsScanLoop_succ g (0 + 1 + 1) 3 (by decide),
    show (3 : Nat) = 2 + 1 from rfl,
    colsScanLoop_succ g (0 + 1 + 1 + 1) 2 (by decide),
    show (2 : Nat) = 1 + 1 from rfl,
    colsScanLoop_succ g (0 + 1 + 1 + 1 + 1) 1 (by decide),
    show (1 : Nat) = 0 + 1 from rfl,
    colsScanLoop_stop g (0 + 1 + 1 + 1 + 1 + 1) 0 (by decide)]
  rfl

theorem row_line_ne_nil (g : List Nat) (i : Nat) (hi : i < g.length) :
    (g.drop i).take GRID_SIZE ≠ [] := by
  intro h
  have := congrArg List.length h
  simp only [List.length_take, List.length_drop, List.length_nil, GRID_SIZE] at this
  omega

theorem row_line_valid (g : List Nat) (hv : ∀ c ∈ g, validCell c) (i : Nat) :
    ∀ c ∈ (g.drop i).take GRID_SIZE, validCell c :=
  fun c hc => hv c (List.mem_of_mem_drop (List.mem_of_mem_take hc))

theorem scanColumns_ne_nil (col : Nat) (g : List Nat) : scanColumns col g ≠ [] := by
  intro h
  have := congrArg List.length h
  simp [scanColumns, GRID_SIZE] at this

theorem scanColumns_valid (g : List Nat) (hg : g.length = 25)
    (hv : ∀ c ∈ g, validCell c) (col : Nat) (hcol : col < GRID_SIZE) :
    ∀ c ∈ scanColumns col g, validCell c := by
  intro c hc
  simp only [scanColumns, List.mem_map, List.mem_range] at hc
  obtain ⟨r, hr, rfl⟩ := hc
  have hidx : r * GRID_SIZE + col < g.length := by
    simp only [GRID_SIZE] at hr hcol ⊢
    omega
  exact hv _ (getD_mem g _ hidx)

/-- C4: on every well-formed 25-cell grid (cells are player ids or the empty
sentinel, including pathological grids with several simultaneously won
lines), the scan examines the lines in the fixed order rows ascending,
columns ascending, main diagonal, anti-diagonal, and returns the first won
line's player in that order: `displayWinner` coincides with the
specification-side first-won-line scan `specScan`. -/
theorem c4_scan_order_refinement (g : List Nat) (hg : g.length = PLAYGROUND_SIZE)
    (hv : ∀ c ∈ g, validCell c) :
    displayWinner g = specScan g := by
  have hg25 : g.length = 25 := hg.trans (by decide)
  have hd1 := topLeftToBottomRightScan_eq g hg25
  have hd2 := topRightToBottomLeftScan_eq g hg25
  have hdw : displayWinner g =
      ifTruthyChain ([(g.drop 0).take GRID_SIZE, (g.drop 5).take GRID_SIZE,
          (g.drop 10).take GRID_SIZE, (g.drop 15).take GRID_SIZE,
          (g.drop 20).take GRID_SIZE] ++
        ([scanColumns 0 g, scanColumns 1 g, scanColumns 2 g,
            scanColumns 3 g, scanColumns 4 g] ++
          [topLeftToBottomRightScan g, topRightToBottomLeftScan g])) := by
    rw [ifTruthyChain_append, ifTruthyChain_append,
      ← rowsScanLoop_unrolled g hg25, ← colsScanLoop_unrolled g]
    simp only [displayWinner]
    rfl
  have hlines : ∀ l ∈ ([(g.drop 0).take GRID_SIZE, (g.drop 5).take GRID_SIZE,
      (g.drop 10).take GRID_SIZE, (g.drop 15).take GRID_SIZE,
      (g.drop 20).take GRID_SIZE] ++
    ([scanColumns 0 g, scanColumns 1 g, scanColumns 2 g,
        scanColumns 3 g, scanColumns 4 g] ++
      [topLeftToBottomRightScan g, topRightToBottomLeftScan g])),
      l ≠ [] ∧ ∀ c ∈ l, validCell c := by
    intro l hl
    simp only [List.mem_append, List.mem_cons, List.not_mem_nil, or_false] at hl
    rcases hl with ((rfl | rfl | rfl | rfl | rfl) | (rfl | rfl | rfl | rfl | rfl) | rfl | rfl)
    · exact ⟨row_line_ne_nil g 0 (by omega), row_line_valid g hv 0⟩
    · exact ⟨row_line_ne_nil g 5 (by omega), row_line_valid g hv 5⟩
    · exact ⟨row_line_ne_nil g 10 (by omega), row_line_valid g hv 10⟩
    · exact ⟨row_line_ne_nil g 15 (by omega), row_line_valid g hv 15⟩
    · exact ⟨row_line_ne_nil g 20 (by omega), row_line_valid g hv 20⟩
    · exact ⟨scanColumns_ne_nil 0 g, scanColumns_valid g hg25 hv 0 (by decide)⟩
    · exact ⟨scanColumns_ne_nil 1 g, scanColumns_valid g hg25 hv 1 (by decide)⟩
    · exact ⟨scanColumns_ne_nil 2 g, scanColumns_valid g hg25 hv 2 (by decide)⟩
    · exact ⟨scanColumns_ne_nil 3 g, scanColumns_valid g hg25 hv 3 (by decide)⟩
    · exact ⟨scanColumns_ne_nil 4 g, scanColumns_valid g hg25 hv 4 (by decide)⟩
    · refine ⟨by rw [hd1]; simp, ?_⟩
      rw [hd1]
      intro c hc
      simp only [List.mem_cons, List.not_mem_nil, or_false] at hc
      rcases hc with rfl | rfl | rfl | rfl | rfl
      · exact hv _ (getD_mem g 0 (by omega))
      · exact hv _ (getD_mem g 6 (by omega))
      · exact hv _ (getD_mem g 12 (by omega))
      · exact hv _ (getD_mem g 18 (by omega))
      · exact hv _ (getD_mem g 24 (by omega))
    · refine ⟨by rw [hd2]; simp, ?_⟩
      rw [hd2]
      intro c hc
      simp only [List.mem_cons, List.not_mem_nil, or_false] at hc
      rcases hc with rfl | rfl | rfl | rfl | rfl
      · exact hv _ (getD_mem g 4 (by omega))
      · exact hv _ (getD_mem g 8 (by omega))
      · exact hv _ (getD_mem g 12 (by omega))
      · exact hv _ (getD_mem g 16 (by omega))
      · exact hv _ (getD_mem g 20 (by omega))
  rw [hdw, ifTruthyChain_eq_findSome _ hlines]
  simp only [specScan]
  congr 1
  rw [hd1, hd2]
  rfl

theorem c4_scan_order_refinement_witness :
    displayWinner ([1, 1, 1, 1, 1] ++ ([2, 2, 2, 2, 2] ++ List.replicate 15 9)) =
      specScan ([1, 1, 1, 1, 1] ++ ([2, 2, 2, 2, 2] ++ List.replicate 15 9)) :=
  c4_scan_order_refinement ([1, 1, 1, 1, 1] ++ ([2, 2, 2, 2, 2] ++ List.replicate 15 9))
    (by decide) (by decide)

theorem c5_diagonal_lines_witness :
    displayWinner [1, 9, 9, 9, 9,
                   9, 1, 9, 9, 9,
                   9, 9, 1, 9, 9,
                   9, 9, 9, 1, 9,
                   9, 9, 9, 9, 1] = some 1 ∧
    displayWinner [9, 9, 9, 9, 4,
                   9, 9, 9, 4, 9,
                   9, 9, 4, 9, 9,
                   9, 4, 9, 9, 9,
                   4, 9, 9, 9, 9] = some 4 :=
  ⟨(c5_diagonal_lines (List.replicate PLAYGROUND_SIZE EMPTY_CELL_VALUE) 0 (by decide)).2.2.2.2.2.1,
    (c5_diagonal_lines (List.replicate PLAYGROUND_SIZE EMPTY_CELL_VALUE) 0 (by decide)).2.2.2.2.2.2⟩

end TicTacToe
